import Mathlib

/-!
Verification of the `practical-sqlalchemy` tutorial repository.

Shallow embedding of the repository's own Python definitions (validators,
hybrid properties, composite value classes, custom collections, version
counter configuration, engine URLs, module imports), together with models of
the small pieces of external library behaviour the repository's scripts rely
on (marked `Modelled from the spec:`).

Python strings are embedded as `List Char`, Python sets as `Finset`, Python
exceptions as `Except` values.
-/

namespace PracticalSqlalchemy

/-! ### `orm-mapped-attributes/descriptors-and-hybrids.py`:
class `EmailAddressPropertyExpression`, hybrid property `email`. -/

/-- The literal string `"@example.com"` appended by the hybrid-property
setter, as a Python string (list of characters). -/
def exampleComSuffix : List Char := "@example.com".data

/-- Setter of the `email` hybrid property on `EmailAddressPropertyExpression`:
`self._email = f"{email}@example.com"`. -/
def emailSetter (email : List Char) : List Char :=
  email ++ exampleComSuffix

/-- Python string slice `s[:-k]`: all characters of `s` but the last `k`
(empty when `s` has at most `k` characters). -/
def pySliceDropLast (s : List Char) (k : Nat) : List Char :=
  s.take (s.length - k)

/-- Getter of the `email` hybrid property on `EmailAddressPropertyExpression`:
`return self._email[:-12]`. -/
def emailGetter (stored : List Char) : List Char :=
  pySliceDropLast stored 12

/-! ### `orm/mapped-classes/orm-composites/composite-column-types.py` and
`redefining-comparison-operations.py`: class `Point` (identical in both). -/

/-- The `Point` composite value class: `__init__(self, x, y)` stores `x`, `y`. -/
structure Point where
  x : Int
  y : Int

/-- A Python value that may be compared with a `Point` via `__eq__`:
either another `Point` instance, or an object of some other class
(so `isinstance(other, Point)` is `False`). -/
inductive PyObj where
  | pt (p : Point)
  | nonPoint (tag : String)

/-- `Point.__composite_values__(self)`: `return self.x, self.y`. -/
def Point.compositeValues (self : Point) : Int × Int :=
  (self.x, self.y)

/-- `Point.__eq__(self, other)`:
`isinstance(other, Point) and other.x == self.x and other.y == self.y`. -/
def Point.eq (self : Point) : PyObj → Bool
  | .pt other => other.x == self.x && other.y == self.y
  | .nonPoint _ => false

/-- `Point.__ne__(self, other)`: `not self.__eq__(other)`. -/
def Point.ne (self : Point) (other : PyObj) : Bool :=
  ! self.eq other

/-! ### `orm/relationships/collections/custom-collection-implementations.py`:
class `SetLike` (the uncommented one, with `@collection.appender`). -/

/-- The `SetLike` custom collection: `self.data = set()`; a Python `set` is
embedded as a `Finset`. -/
structure SetLike (α : Type) [DecidableEq α] where
  data : Finset α

variable {α : Type} [DecidableEq α]

theorem SetLike.ext_iff {a b : SetLike α} : a = b ↔ a.data = b.data := by
  cases a; cases b; simp

instance : DecidableEq (SetLike α) := fun a b =>
  decidable_of_iff (a.data = b.data) SetLike.ext_iff.symm

/-- `SetLike.append(self, item)`: `self.data.add(item)`. -/
def SetLike.append (self : SetLike α) (item : α) : SetLike α :=
  ⟨insert item self.data⟩

/-- `SetLike.remove(self, item)`: `self.data.remove(item)`; Python
`set.remove` raises `KeyError` when the item is absent. -/
def SetLike.remove (self : SetLike α) (item : α) : Except String (SetLike α) :=
  if item ∈ self.data then .ok ⟨self.data.erase item⟩
  else .error "KeyError"

/-- `SetLike.__iter__(self)`: `iter(self.data)` — iterating the underlying
set yields each member once; the multiset of iterated items. -/
def SetLike.iterItems (self : SetLike α) : Multiset α :=
  self.data.val

/-! ### `orm-mapped-attributes/simple-validators.py`: `@validates` validators. -/

/-- A Python value assigned to a validated attribute: either a plain string
(what the scripts assign to the `email` string column) or an `Address`-like
object carrying an `email` attribute (what is appended to the `addresses`
relationship). -/
inductive AssignedValue where
  | strVal (s : List Char)
  | addressObj (email : List Char)
  deriving DecidableEq

/-- A Python exception raised during attribute validation. -/
inductive PyError where
  | valueError (msg : String)
  | attributeError (msg : String)
  deriving DecidableEq

/-- Python attribute access `address.email`: an `Address`-like object yields
its `email` attribute; a `str` has no attribute `email`, so the access raises
`AttributeError`. -/
def getEmailAttr : AssignedValue → Except PyError (List Char)
  | .strVal _ => .error (.attributeError "'str' object has no attribute 'email'")
  | .addressObj e => .ok e

/-- `EmailAddress.validate_email(self, key, address)` — and identically
`Address.validate_email`:
`if "@" not in address.email: raise ValueError("failed simplified email validation")`,
else `return address`. Note the body tests `address.email`, not `address`. -/
def validate_email (address : AssignedValue) : Except PyError AssignedValue := do
  let e ← getEmailAttr address
  if '@' ∈ e then .ok address
  else .error (.valueError "failed simplified email validation")

/-! ### `orm-api/orm-api.py`: `query.one()` under `try`/`except`. -/

/-- Modelled from the spec: `Query.one()` of the external ORM library (library
code, not part of this repository) returns the single result row when the
query matches exactly one row, raises a no-row-found exception when it
matches none, and a multiple-rows exception when it matches more than one. -/
def queryOne {β : Type} (rows : List β) : Except String β :=
  match rows with
  | [] => .error "No row was found when one was required"
  | [r] => .ok r
  | _ :: _ :: _ => .error "Multiple rows were found when exactly one was required"

/-- The `try`/`except` pattern of `orm-api/orm-api.py` (lines 122-130) around
`query.one()`: on success the row is bound and nothing is printed; on an
exception the script prints `str(e)` instead of propagating it.  The result is
the list of lines printed by the `except` branch. -/
def tryOnePrint {β : Type} (rows : List β) : List String :=
  match queryOne rows with
  | .ok _ => []
  | .error e => [e]

/-! ### Engine construction: every `create_engine(...)` call in the
repository. -/

/-- The URL argument of each of the 14 `create_engine(...)` call sites in the
repository (the only engine-construction calls; no other engine-creation API
is used anywhere):
`metadata/metadata.py:4`,
`orm/mapped-classes/orm-mapped-class/mapper-class-behavior.py:73`,
`orm/mapped-classes/declarative-tables/reflected-tables.py:5`,
`orm/mapped-classes/orm-column-mapping/column-naming-scheme.py:4`,
`transactions/transaction.py:5`,
`orm-api/orm-api.py:14`,
`declarative-tables/reflected-tables.py:4`,
`orm-related-objects/orm-related-objects.py:10`,
`orm-quickstart/orm-quickstart.py:6`,
`versioning/conditional-version-counters.py:6`,
`data/update-delete/update_delete.py:9`,
`data/insertion/insertion.py:7`,
`data/selection/selection.py:11`,
`orm-data-manipulation/orm-data-manipulation.py:8`. -/
def engineUrls : List String :=
  [ "sqlite+pysqlite:///:memory:"
  , "sqlite+pysqlite:///:memory:"
  , "sqlite+pysqlite:///:memory:"
  , "sqlite+pysqlite:///:memory:"
  , "sqlite+pysqlite:///:memory:"
  , "sqlite:///:memory:"
  , "sqlite+pysqlite:///:memory:"
  , "sqlite+pysqlite:///:memory:"
  , "sqlite://"
  , "sqlite+pysqlite:///:memory:"
  , "sqlite+pysqlite:///:memory:"
  , "sqlite+pysqlite:///:memory:"
  , "sqlite+pysqlite:///:memory:"
  , "sqlite+pysqlite:///:memory:"
  ]

/-- The three URL forms that denote an in-process, in-memory SQLite database. -/
def inMemorySqliteUrls : List String :=
  ["sqlite:///:memory:", "sqlite+pysqlite:///:memory:", "sqlite://"]

/-- The characters following the first occurrence of the marker `"///"` in a
string, if the marker occurs at all. -/
def afterTripleSlash : List Char → Option (List Char)
  | [] => none
  | c :: rest =>
      if List.isPrefixOf ['/', '/', '/'] (c :: rest) then some rest.tail.tail
      else afterTripleSlash rest

/-- The database part of a SQLite URL: what follows `"///"`, if anything.
`"sqlite://"` has no database part at all. -/
def sqliteDatabasePart (url : String) : Option (List Char) :=
  afterTripleSlash url.data

/-- A SQLite URL names a database file exactly when its database part is
present, non-empty, and not the special `":memory:"` token. -/
def referencesDbFile (url : String) : Bool :=
  match sqliteDatabasePart url with
  | none => false
  | some p => p ≠ [] && p ≠ ":memory:".data

/-! ### Module imports of every example script. -/

/-- Every module name referenced by an `import` or `from ... import`
statement anywhere in the repository's 86 scripts (deduplicated; the scripts
contain no other import forms). -/
def importedModules : List String :=
  [ "__future__", "attrs", "dataclasses", "datetime", "geoalchemy2", "json"
  , "sqlalchemy", "sqlalchemy.dialects", "sqlalchemy.dialects.postgresql"
  , "sqlalchemy.ext.declarative", "sqlalchemy.ext.hybrid", "sqlalchemy.orm"
  , "sqlalchemy.orm.collections", "sqlalchemy.orm.decl_api", "sqlalchemy.sql"
  , "sqlalchemy.util", "typing", "uuid" ]

/-- The Python standard-library modules referenced by the scripts. -/
def stdlibModules : List String :=
  ["__future__", "dataclasses", "datetime", "json", "typing", "uuid"]

/-- A module name belongs to the external ORM library when it is `sqlalchemy`
or one of its dotted submodules. -/
def isOrmLibraryModule (m : String) : Bool :=
  m == "sqlalchemy" || List.isPrefixOf "sqlalchemy.".data m.data

/-- The module stems of the repository's own files (each `.py` file name
without its extension, deduplicated across directories). -/
def repoFileModuleStems : List String :=
  [ "adjacency-list-relationships", "aliased-class", "alternate-join-conditions"
  , "arbitrary-subqueries", "association-object", "augmenting-base"
  , "column-from-attribute", "column-naming-scheme", "column-property"
  , "combine-mixins", "composite-adjacency-lists", "composite-column-types"
  , "composite-secondary-joins", "concrete-table-inheritance"
  , "conditional-version-counters", "custom-collection-implementations"
  , "custom-foreign-conditions", "custom-operator-join-condition"
  , "custom-version-counter", "customizing-collection-access"
  , "dataclasses-using-imperative-mapping", "declarative-mapping"
  , "declarative-mapping-decorator", "declarative-mapping-directives"
  , "declarative-mixins", "declarative-mixins-with-dataclasses"
  , "declarative-table", "declarative-table-configuration"
  , "declarative-with-imperative-table", "descriptors-and-hybrids"
  , "explicit-schema-name", "generated-base-class", "hybrid-declarative"
  , "imperative-mapping", "index-with-mixin", "insertion"
  , "joined-table-inheritance", "large-collections", "late-evaluation"
  , "many-to-many", "many-to-one", "mapped-properties-with-declarative"
  , "mapper-class-behavior", "mapper-configuration-options"
  , "mapping-attrs-declarative-imperative", "mapping-attrs-imperative-mapping"
  , "materialized-path", "metadata", "mixing-columns"
  , "mixing-inheritance-columns", "mixing-other-mapper", "mixing-relationships"
  , "multiple-join-paths", "multiple-tables", "nesting-composites"
  , "non-dynamic-explicit-base", "one-to-many", "one-to-one", "orm-api"
  , "orm-data-manipulation", "orm-quickstart", "orm-related-objects"
  , "overlapping-foreign-keys", "plain-descriptor", "primary-key-columns"
  , "query-enabled-properties", "query-time-sql"
  , "redefining-comparison-operations", "reflected-tables"
  , "row-limited-relationships", "selection", "self-referential-m2m"
  , "server-side-version", "simple-validators", "simple-version-counting"
  , "single-table-inheritance", "sql-function-custom-operator", "synonyms"
  , "table-column-subset", "table-inheritance", "transaction", "update_delete"
  , "using-hybrid" ]

/-! ### `versioning/custom-version-counter.py`: custom version counter. -/

/-- Modelled from the spec: `uuid.uuid4()` of the Python standard library
(library code, not part of this repository) returns a freshly generated
random UUID whose 128-bit integer value has its version nibble (bits 76-79)
forced to `4` and its variant bits (bits 62-63) forced to `0b10`; the
randomness is modelled as an explicit `entropy` parameter. -/
def uuid4Int (entropy : Nat) : Nat :=
  let r := entropy % 2 ^ 128
  let withVersion := (r / 2 ^ 80) * 2 ^ 80 + 4 * 2 ^ 76 + r % 2 ^ 76
  (withVersion / 2 ^ 64) * 2 ^ 64 + 2 * 2 ^ 62 + withVersion % 2 ^ 62

/-- The sixteen lowercase hexadecimal digit characters, in value order. -/
def lowerHexDigits : List Char := "0123456789abcdef".data

/-- The lowercase hexadecimal digit character of value `d` (for `d < 16`). -/
def hexDigitChar (d : Nat) : Char := lowerHexDigits.getD d '0'

/-- Modelled from the spec: the `hex` attribute of a Python `uuid.UUID`
(standard-library code) is `"%032x" % self.int` — the 32-character,
zero-padded, lowercase hexadecimal rendering of the 128-bit integer value,
most significant digit first. -/
def uuidHex (n : Nat) : List Char :=
  (List.range 32).map fun i => hexDigitChar (n / 16 ^ (31 - i) % 16)

/-- The custom version counter configured in `User.__mapper_args__` of
`versioning/custom-version-counter.py`:
`"version_id_generator": lambda version: uuid.uuid4().hex`.
The lambda ignores its `version` argument and returns the hex form of a
freshly generated UUID4. -/
def version_id_generator {V : Type} (_version : V) (entropy : Nat) : List Char :=
  uuidHex (uuid4Int entropy)

/-- The capacity of the `String(32)` column `version_uuid` that the generator
is configured against. -/
def versionUuidColumnCapacity : Nat := 32

/-! ### `versioning/conditional-version-counters.py`:
`version_id_generator = False`. -/

/-- A stored row of the `user` table of
`versioning/conditional-version-counters.py`. -/
structure UserRow where
  id : Nat
  version_uuid : String
  name : String
  deriving DecidableEq

/-- The attribute assignments pending on a `User` object at commit time;
`none` means the application did not assign the attribute. -/
structure PendingUserChanges where
  name : Option String
  version_uuid : Option String
  deriving DecidableEq

/-- Modelled from the spec: under
`__mapper_args__ = {"version_id_col": version_uuid, "version_id_generator": False}`
(the configuration of `conditional-version-counters.py`), the ORM's flush at
commit applies exactly the attribute values the application assigned and
generates no version value of its own. -/
def commitNoAutoVersion (row : UserRow) (p : PendingUserChanges) : UserRow :=
  { row with
      name := p.name.getD row.name
      version_uuid := p.version_uuid.getD row.version_uuid }

/-- The external third-party packages (other than the ORM library itself)
imported by the scripts. -/
def thirdPartyModules : List String := ["attrs", "geoalchemy2"]

instance {ε σ : Type} [DecidableEq ε] [DecidableEq σ] : DecidableEq (Except ε σ) :=
  fun a b =>
    match a, b with
    | .ok x, .ok y =>
        if h : x = y then isTrue (by rw [h]) else isFalse fun hc => h (Except.ok.inj hc)
    | .error x, .error y =>
        if h : x = y then isTrue (by rw [h]) else isFalse fun hc => h (Except.error.inj hc)
    | .ok _, .error _ => isFalse Except.noConfusion
    | .error _, .ok _ => isFalse Except.noConfusion

/-! ## Theorems -/

/-- C8: for every string `e`, on an `EmailAddressPropertyExpression`,
assigning `e` to the hybrid property `email` stores `e ++ "@example.com"`
(a suffix of exactly 12 characters) in `_email`, and reading `email` back
removes the last 12 characters, so the setter-then-getter round-trip is the
identity. -/
theorem C8_email_setter_getter_roundtrip (e : List Char) :
    exampleComSuffix.length = 12
    ∧ emailSetter e = e ++ exampleComSuffix
    ∧ emailGetter (emailSetter e) = e := by
  refine ⟨by decide, rfl, ?_⟩
  unfold emailGetter emailSetter pySliceDropLast
  rw [List.length_append, show exampleComSuffix.length = 12 from by decide,
    Nat.add_sub_cancel, List.take_left]

/-- C9: `Point(x, y).__composite_values__()` returns the pair `(x, y)`;
`Point.__eq__` holds exactly when the other value is a `Point` with equal
`x` and `y` coordinates (and is symmetric on `Point`s); `Point.__ne__` is
the logical negation of `Point.__eq__` on the same arguments. -/
theorem C9_point_composite_eq_ne (x y : Int) (p q : Point) (o : PyObj) :
    (Point.mk x y).compositeValues = (x, y)
    ∧ (p.eq o = true ↔ ∃ r, o = PyObj.pt r ∧ r.x = p.x ∧ r.y = p.y)
    ∧ p.eq (PyObj.pt q) = q.eq (PyObj.pt p)
    ∧ p.ne o = !p.eq o := by
  refine ⟨rfl, ?_, ?_, rfl⟩
  · cases o with
    | pt r =>
        simp only [Point.eq, Bool.and_eq_true, beq_iff_eq, PyObj.pt.injEq]
        constructor
        · rintro ⟨h1, h2⟩
          exact ⟨r, rfl, h1, h2⟩
        · rintro ⟨r', hr, h1, h2⟩
          subst hr
          exact ⟨h1, h2⟩
    | nonPoint t =>
        simp only [Point.eq]
        constructor
        · intro h
          exact absurd h (by decide)
        · rintro ⟨r, hr, -⟩
          exact PyObj.noConfusion hr
  · rw [Bool.eq_iff_iff]
    simp only [Point.eq, Bool.and_eq_true, beq_iff_eq]
    constructor
    · rintro ⟨h1, h2⟩
      exact ⟨h1.symm, h2.symm⟩
    · rintro ⟨h1, h2⟩
      exact ⟨h1.symm, h2.symm⟩

/-- C10 counterexample: on the `SetLike` collection `{0}` that already
contains the item `0`, calling `append(0)` and then `remove(0)` yields the
empty collection, so the prior membership of `0` is NOT restored — refuting
the claim's final conjunct as stated. -/
theorem C10_remove_not_restoring_counterexample :
    (SetLike.append ⟨{0}⟩ 0).remove 0 = Except.ok (⟨∅⟩ : SetLike Nat)
    ∧ ¬ ((0 : Nat) ∈ (⟨∅⟩ : SetLike Nat).data ↔ 0 ∈ (⟨{0}⟩ : SetLike Nat).data) := by
  decide

/-- C10 (amended): `append` is idempotent — after two `append(x)` calls,
iteration yields `x` exactly once, and the state equals that after a single
`append(x)`; `remove(x)` after `append(x)` always leaves the collection
without `x`, which restores the prior membership of `x` exactly when `x` was
not already a member. -/
theorem C10_setlike_append_idempotent_remove {α : Type} [DecidableEq α]
    (s : SetLike α) (x : α) :
    ((s.append x).append x).iterItems.count x = 1
    ∧ (s.append x).append x = s.append x
    ∧ (∀ t, (s.append x).remove x = Except.ok t → x ∉ t.data)
    ∧ (x ∉ s.data → (s.append x).remove x = Except.ok s) := by
  refine ⟨?_, ?_, ?_, ?_⟩
  · exact Multiset.count_eq_one_of_mem ((s.append x).append x).data.nodup
      (Finset.mem_insert_self x _)
  · rw [SetLike.ext_iff]
    exact Finset.insert_idem x s.data
  · intro t ht
    have hmem : x ∈ (s.append x).data := Finset.mem_insert_self x s.data
    unfold SetLike.remove at ht
    rw [if_pos hmem] at ht
    cases ht
    exact Finset.not_mem_erase x _
  · intro hx
    have hmem : x ∈ (s.append x).data := Finset.mem_insert_self x s.data
    unfold SetLike.remove
    rw [if_pos hmem]
    rw [show ((s.append x).data.erase x) = s.data from Finset.erase_insert hx]

/-- C10 witness: the amended theorem evaluated on the empty `SetLike Nat`
collection and the item `0`. -/
theorem C10_setlike_witness :
    ((SetLike.append (SetLike.append (⟨∅⟩ : SetLike Nat) 0) 0).iterItems.count 0 = 1)
    ∧ (SetLike.append (SetLike.append (⟨∅⟩ : SetLike Nat) 0) 0
        = SetLike.append (⟨∅⟩ : SetLike Nat) 0)
    ∧ (0 ∉ ((⟨∅⟩ : SetLike Nat)).data)
    ∧ ((SetLike.append (⟨∅⟩ : SetLike Nat) 0).remove 0 = Except.ok (⟨∅⟩ : SetLike Nat)) := by
  have h := C10_setlike_append_idempotent_remove (⟨∅⟩ : SetLike Nat) 0
  exact ⟨h.1, h.2.1, h.2.2.1 ⟨∅⟩ (by decide), h.2.2.2 (by decide)⟩

/-- C1: the code of `validate_email` evaluated at its failing inputs — for a
string value assigned to the `email` column, `address.email` raises
`AttributeError` (Python strings have no `email` attribute), so the validator
never raises the claimed `ValueError` on strings lacking `"@"`, and even a
well-formed address string raises; only an `Address`-like object input
exercises the `"@"` test. -/
theorem C1_validate_email_attribute_error :
    validate_email (.strVal "plainaddress".data)
        = .error (.attributeError "'str' object has no attribute 'email'")
    ∧ validate_email (.strVal "plainaddress".data)
        ≠ .error (.valueError "failed simplified email validation")
    ∧ validate_email (.strVal "user@example.com".data)
        = .error (.attributeError "'str' object has no attribute 'email'")
    ∧ validate_email (.addressObj "plainaddress".data)
        = .error (.valueError "failed simplified email validation") := by
  decide

/-- C2: `query.one()` returns the single matching row when exactly one row
matches; it raises when no row or more than one row matches, and in either
failing case the script's `try`/`except` prints the exception's message
instead of propagating it (nothing is printed on success). -/
theorem C2_query_one_spec {β : Type} (rows : List β) (u : β) :
    (rows = [u] → queryOne rows = Except.ok u)
    ∧ (rows = [] → ∃ e, queryOne rows = Except.error e ∧ tryOnePrint rows = [e])
    ∧ (2 ≤ rows.length → ∃ e, queryOne rows = Except.error e ∧ tryOnePrint rows = [e])
    ∧ (∀ r, queryOne rows = Except.ok r → tryOnePrint rows = []) := by
  refine ⟨?_, ?_, ?_, ?_⟩
  · rintro rfl
    rfl
  · rintro rfl
    exact ⟨_, rfl, rfl⟩
  · intro h
    cases rows with
    | nil => simp at h
    | cons a t =>
        cases t with
        | nil => simp at h
        | cons b t' => exact ⟨_, rfl, rfl⟩
  · intro r hr
    unfold tryOnePrint
    rw [hr]

/-- C2 witness: the theorem evaluated at a singleton row list, the empty row
list, and a two-row list. -/
theorem C2_query_one_witness :
    queryOne [(7 : Nat)] = Except.ok 7
    ∧ (∃ e, queryOne ([] : List Nat) = Except.error e
        ∧ tryOnePrint ([] : List Nat) = [e])
    ∧ (∃ e, queryOne [(1 : Nat), 2] = Except.error e
        ∧ tryOnePrint [(1 : Nat), 2] = [e])
    ∧ tryOnePrint [(7 : Nat)] = [] := by
  have h1 := C2_query_one_spec [(7 : Nat)] 7
  have h2 := C2_query_one_spec ([] : List Nat) 0
  have h3 := C2_query_one_spec [(1 : Nat), 2] 0
  exact ⟨h1.1 rfl, h2.2.1 rfl, h3.2.2.1 (by decide), h1.2.2.2 7 rfl⟩

/-- C3: every engine created anywhere in the repository uses one of the three
in-process, in-memory SQLite URL forms, and no engine URL names a database
file. -/
theorem C3_engine_urls_in_memory :
    (engineUrls.all fun u => inMemorySqliteUrls.contains u && !referencesDbFile u)
      = true := by
  decide

/-- C4 counterexample: the scripts import the module `attrs`, which is neither
the external ORM library nor a Python standard-library module — refuting the
claim that imports reference only the ORM library and the standard library. -/
theorem C4_attrs_import_counterexample :
    "attrs" ∈ importedModules
    ∧ isOrmLibraryModule "attrs" = false
    ∧ "attrs" ∉ stdlibModules := by
  decide

/-- C4 (amended): every module imported anywhere in the repository is external
— the ORM library, a standard-library module, or one of the third-party
packages `attrs` and `geoalchemy2` — and no import references another file of
this repository, so no value computed by one example file is read by any
other. -/
theorem C4_imports_external_only :
    (importedModules.all fun m =>
        isOrmLibraryModule m || stdlibModules.contains m
          || thirdPartyModules.contains m) = true
    ∧ (importedModules.all fun m => !repoFileModuleStems.contains m) = true := by
  decide

theorem hexDigitChar_mem (d : Nat) : hexDigitChar d ∈ lowerHexDigits := by
  unfold hexDigitChar
  rcases Nat.lt_or_ge d 16 with h | h
  · interval_cases d <;> decide
  · rw [List.getD_eq_default _ _ (by simpa [lowerHexDigits] using h)]
    decide

/-- C5: the custom `version_id_generator` lambda, for every value of its
`version` argument, returns the hex form of a freshly generated UUID4 — a
32-character string of lowercase hexadecimal digits, which therefore fits
the `String(32)` `version_uuid` column. -/
theorem C5_version_id_generator_hex {V : Type} (version : V) (entropy : Nat) :
    version_id_generator version entropy = uuidHex (uuid4Int entropy)
    ∧ (version_id_generator version entropy).length = 32
    ∧ (∀ c ∈ version_id_generator version entropy, c ∈ lowerHexDigits)
    ∧ (version_id_generator version entropy).length ≤ versionUuidColumnCapacity := by
  refine ⟨rfl, ?_, ?_, ?_⟩
  · simp [version_id_generator, uuidHex]
  · intro c hc
    simp only [version_id_generator, uuidHex, List.mem_map] at hc
    obtain ⟨i, -, rfl⟩ := hc
    exact hexDigitChar_mem _
  · simp [version_id_generator, uuidHex, versionUuidColumnCapacity]

/-- C5 witness: the generator evaluated at `version = 0` with entropy `0`;
the first character of the generated hex string is a lowercase hex digit. -/
theorem C5_version_id_generator_witness :
    ('0' : Char) ∈ version_id_generator (0 : Nat) 0
    ∧ '0' ∈ lowerHexDigits
    ∧ (version_id_generator (0 : Nat) 0).length = 32 := by
  have h := C5_version_id_generator_hex (0 : Nat) 0
  exact ⟨by decide, h.2.2.1 '0' (by decide), h.2.1⟩

/-- C6: with `version_id_generator = False`, a commit whose only pending
assignment is to `name` updates exactly `name` and leaves `version_uuid`
unchanged; more generally `version_uuid` is unchanged by any commit in which
the application did not assign it. -/
theorem C6_version_uuid_unchanged (row : UserRow) (p : PendingUserChanges)
    (n : String) :
    commitNoAutoVersion row ⟨some n, none⟩ = { row with name := n }
    ∧ (p.version_uuid = none →
        (commitNoAutoVersion row p).version_uuid = row.version_uuid) := by
  constructor
  · rfl
  · intro h
    simp [commitNoAutoVersion, h]

/-- C6 witness: the script's third commit (`u1.name = "u3"; session.commit()`)
evaluated on a concrete row. -/
theorem C6_version_uuid_witness :
    commitNoAutoVersion ⟨1, "aaaa", "u2"⟩ ⟨some "u3", none⟩ = ⟨1, "aaaa", "u3"⟩
    ∧ (commitNoAutoVersion ⟨1, "aaaa", "u2"⟩ ⟨some "u3", none⟩).version_uuid
        = "aaaa" := by
  have h := C6_version_uuid_unchanged ⟨1, "aaaa", "u2"⟩ ⟨some "u3", none⟩ "u3"
  exact ⟨h.1, h.2 rfl⟩

end PracticalSqlalchemy
